import Mathlib

/-!
Verification of the Monie offline mutation queue and optimistic-update
subsystem (`syncQueue.ts`, `offlineDisplayCache.ts`, `optimisticUpdates.ts`,
the Axios interceptors in `client.ts`, and the `useOfflineSync` hook).

The embedding is shallow: each TypeScript function becomes a Lean function
over explicit state.  Browser `localStorage` is modelled at the parsed level
(the JSON round trip is assumed faithful); the raw string level, with an
abstract parse function standing for `JSON.parse`, is modelled separately
for the totality properties of the two store readers.  `Date.now()` and
`Math.random()` are modelled as explicit `now`/`rand` inputs threaded
through the state.  The JWT base64 decode performed by `getOfflineContext`
is modelled by a state field `jwtWorkspaceId` holding the decoded
`current_workspace_id` of the current token.
-/

namespace Monie

/-- `pat` is an initial segment of `s` (over character lists). -/
def charsStartWith : List Char → List Char → Bool
  | _, [] => true
  | [], _ :: _ => false
  | c :: cs, p :: ps => c == p && charsStartWith cs ps

/-- `pat` occurs as a contiguous substring of `s` (over character lists). -/
def charsContain : List Char → List Char → Bool
  | [], pat => pat.isEmpty
  | c :: cs, pat => charsStartWith (c :: cs) pat || charsContain cs pat

/-- JS `String.prototype.includes`. -/
def strIncludes (s pat : String) : Bool :=
  charsContain s.data pat.data

/-- One component of a react-query cache key.  Keys in this subsystem mix
strings (resource names) and numbers (`budget_period_id`), and the id slot
is `undefined` when the request body lacks a period. -/
inductive KeyPart
  | str (s : String)
  | num (n : Nat)
  | jsUndefined
deriving DecidableEq, Repr

/-- JS record `id` fields: numeric for server records, a `temp-…` string for
optimistic placeholders. -/
inductive ItemId
  | num (n : Nat)
  | str (s : String)
deriving DecidableEq, Repr

/-- The request-body fields the subsystem inspects (`budget_period_id`,
`category_id`), plus the remaining payload fields kept opaque. -/
structure Body where
  budget_period_id : Option Nat := none
  category_id : Option Nat := none
  fields : List (String × String) := []
deriving DecidableEq, Repr

/-- JS truthiness of an optional numeric field (`undefined` and `0` are
falsy). -/
def truthyNat : Option Nat → Bool
  | none => false
  | some n => n != 0

/-- The slice of an Axios request config that the subsystem captures and
replays: `{method, url, data, params, headers}`. -/
structure AxiosConfig where
  method : Option String := none
  url : Option String := none
  data : Option Body := none
  params : List (String × String) := []
  headers : List (String × String) := []
deriving DecidableEq, Repr

/-- The category object embedded into a transaction placeholder when the
lookup in the `['categories', pid]` cache succeeds (a shallow copy of the
found record's id and payload). -/
structure CategoryObj where
  id : ItemId
  body : Body
deriving DecidableEq, Repr

/-- An item held in an array-valued react-query cache entry.  A `server`
item has no `_tempId`/`_offline` marks; an `optimistic` item is the
placeholder `{id: tempId, ...body, (category,) _offline: true, _tempId:
tempId}`.  `category = none` means the field is absent (families other than
transactions / planned transactions); `some c?` means it is present, null
or resolved. -/
inductive CacheItem
  | server (id : ItemId) (body : Body)
  | optimistic (tempId : String) (body : Body) (category : Option (Option CategoryObj))
deriving DecidableEq, Repr

/-- The `_tempId` field: `undefined` on server items. -/
def CacheItem.tempId? : CacheItem → Option String
  | .server _ _ => none
  | .optimistic t _ _ => some t

/-- The `id` field of a cache item. -/
def CacheItem.itemId : CacheItem → ItemId
  | .server i _ => i
  | .optimistic t _ _ => .str t

/-- The payload fields of a cache item. -/
def CacheItem.payload : CacheItem → Body
  | .server _ b => b
  | .optimistic _ b _ => b

/-- The data held by one react-query cache entry: `undefined`, an array, or
some non-array value. -/
inductive CacheVal
  | jsUndefined
  | arr (items : List CacheItem)
  | other
deriving DecidableEq, Repr

/-- One react-query cache entry: a key and its current data. -/
structure QueryEntry where
  key : List KeyPart
  val : CacheVal
deriving DecidableEq, Repr

/-- The in-memory react-query cache. -/
abbrev QueryCache := List QueryEntry

/-- react-query partial key matching: the filter key must be an initial
segment of the entry key (`['transactions', pid]` matches
`['transactions', pid, …params]`). -/
def keyFilterMatches : List KeyPart → List KeyPart → Bool
  | [], _ => true
  | _ :: _, [] => false
  | a :: as, b :: bs => a == b && keyFilterMatches as bs

/-- `queryClient.setQueriesData({queryKey}, f)`: applies `f` to the data of
every existing entry whose key matches the filter; creates nothing. -/
def setQueriesData (qc : QueryCache) (filter : List KeyPart) (f : CacheVal → CacheVal) :
    QueryCache :=
  qc.map fun e => if keyFilterMatches filter e.key then { e with val := f e.val } else e

/-- `queryClient.getQueryData(key)`: exact key match; `undefined` when no
entry exists. -/
def getQueryData (qc : QueryCache) (k : List KeyPart) : CacheVal :=
  match qc.find? (fun e => e.key == k) with
  | some e => e.val
  | none => .jsUndefined

/-- A `react-hot-toast` notification, success- or error-styled. -/
inductive Toast
  | success (msg : String)
  | error (msg : String)
deriving DecidableEq, Repr

/-- The `OfflineDisplayItem.entityType` enumeration of
`offlineDisplayCache.ts`. -/
inductive EntityType
  | transaction
  | plannedTransaction
  | currencyExchange
  | category
  | budgetPeriod
deriving DecidableEq, Repr

/-- A persisted Display Cache record (`OfflineDisplayItem`). -/
structure OfflineDisplayItem where
  tempId : String
  timestamp : Nat
  entityType : EntityType
  budgetPeriodId : Option Nat
  data : CacheItem
deriving DecidableEq, Repr

/-- A successfully parsed JSON value that is not an array of store items:
a JSON string (which still has a numeric `.length` in JS), or any other
non-array value — number, object, boolean, null — whose `.length` is
`undefined` and on which `.filter` is not a function. -/
inductive NonArrayJson
  | jsonString (s : String)
  | jsonOther
deriving DecidableEq, Repr

/-- The result of a `JSON.parse` call that did not throw, at a store whose
well-formed content is a `List α`: either an array of items, or any other
JSON value, which the source's readers return as-is. -/
inductive ParsedJson (α : Type)
  | arrOf (l : List α)
  | nonArr (v : NonArrayJson)
deriving DecidableEq, Repr

namespace OfflineDisplayCache

/-- `OfflineDisplayCache.addItem`: appends a new record to the persisted
array. -/
def addItem (items : List OfflineDisplayItem) (tempId : String) (now : Nat)
    (entityType : EntityType) (budgetPeriodId : Option Nat) (data : CacheItem) :
    List OfflineDisplayItem :=
  items ++ [{ tempId := tempId, timestamp := now, entityType := entityType,
              budgetPeriodId := budgetPeriodId, data := data }]

/-- `OfflineDisplayCache.removeItem`: filters the record with the given
`tempId` out of the persisted array. -/
def removeItem (items : List OfflineDisplayItem) (tempId : String) :
    List OfflineDisplayItem :=
  items.filter fun i => i.tempId != tempId

/-- `OfflineDisplayCache.getItemsByType`: filter by entity type and, when
the `budgetPeriodId` argument is provided (outer `some`), by period. -/
def getItemsByType (items : List OfflineDisplayItem) (entityType : EntityType)
    (budgetPeriodId : Option (Option Nat)) : List CacheItem :=
  (items.filter fun i =>
    if i.entityType != entityType then false
    else match budgetPeriodId with
      | some bp => i.budgetPeriodId == bp
      | none => true).map (·.data)

/-- `OfflineDisplayCache.getCount`. -/
def getCount (items : List OfflineDisplayItem) : Nat := items.length

/-- `OfflineDisplayCache.getItems` at the raw storage level.  `parse`
models `JSON.parse` at this store: `none` is a thrown parse error (caught,
yielding `[]`); a successful parse may be non-array JSON, which the source
returns as-is.  A falsy stored string (absent key or `""`) yields `[]`
without parsing. -/
def getItemsRaw (parse : String → Option (ParsedJson OfflineDisplayItem))
    (stored : Option String) : ParsedJson OfflineDisplayItem :=
  match stored with
  | none => .arrOf []
  | some s =>
    if s == "" then .arrOf []
    else
      match parse s with
      | none => .arrOf []
      | some v => v

/-- `getItemsByType` composed with the raw reader: `items.filter` throws a
`TypeError` (modelled `none`) when the read value is not an array. -/
def getItemsByTypeRaw (parse : String → Option (ParsedJson OfflineDisplayItem))
    (stored : Option String) (entityType : EntityType)
    (budgetPeriodId : Option (Option Nat)) : Option (List CacheItem) :=
  match getItemsRaw parse stored with
  | .arrOf l => some (getItemsByType l entityType budgetPeriodId)
  | .nonArr _ => none

/-- `removeItem` composed with the raw reader: `items.filter` throws a
`TypeError` (modelled `none`) when the read value is not an array. -/
def removeItemRaw (parse : String → Option (ParsedJson OfflineDisplayItem))
    (stored : Option String) (tempId : String) : Option (List OfflineDisplayItem) :=
  match getItemsRaw parse stored with
  | .arrOf l => some (removeItem l tempId)
  | .nonArr _ => none

/-- `getCount` composed with the raw reader: `getItems().length` is the
array length, the string length for a parsed JSON string, and `undefined`
(modelled `none`) for every other non-array value. -/
def getCountRaw (parse : String → Option (ParsedJson OfflineDisplayItem))
    (stored : Option String) : Option Nat :=
  match getItemsRaw parse stored with
  | .arrOf l => some l.length
  | .nonArr (.jsonString s) => some s.length
  | .nonArr .jsonOther => none

end OfflineDisplayCache

/-- The `optimisticData` pointer stored on a queued request:
`{queryKey, tempId, data}`. -/
structure OptimisticData where
  queryKey : List KeyPart
  tempId : String
  data : CacheItem
deriving DecidableEq, Repr

/-- A persisted `QueuedRequest` of `syncQueue.ts`. -/
structure QueuedRequest where
  id : String
  timestamp : Nat
  config : AxiosConfig
  description : String
  optimisticData : Option OptimisticData := none
  workspaceId : Option Nat := none
  accountId : Option Nat := none
deriving DecidableEq, Repr

/-- The workspace/account context captured at enqueue time. -/
structure OfflineContext where
  workspaceId : Option Nat := none
  accountId : Option Nat := none
deriving DecidableEq, Repr

namespace SyncQueueManager

/-- `SyncQueueManager.addToQueue`: builds a `QueuedRequest` with id
`` `${Date.now()}-${rand}` `` from the `{method,url,data,params,headers}`
slice of the config, appends it to the persisted queue, and returns the
updated queue together with the id. -/
def addToQueue (queue : List QueuedRequest) (now : Nat) (rand : String)
    (config : AxiosConfig) (description : String)
    (optimisticData : Option OptimisticData) (context : Option OfflineContext) :
    List QueuedRequest × String :=
  let id := toString now ++ "-" ++ rand
  let request : QueuedRequest :=
    { id := id
      timestamp := now
      config := { method := config.method, url := config.url, data := config.data,
                  params := config.params, headers := config.headers }
      description := description
      optimisticData := optimisticData
      workspaceId := context.bind (·.workspaceId)
      accountId := context.bind (·.accountId) }
  (queue ++ [request], id)

/-- `SyncQueueManager.removeFromQueue`: filters the given id out of the
persisted queue. -/
def removeFromQueue (queue : List QueuedRequest) (id : String) :
    List QueuedRequest :=
  queue.filter fun req => req.id != id

/-- `SyncQueueManager.getQueueSize`. -/
def getQueueSize (queue : List QueuedRequest) : Nat := queue.length

/-- `SyncQueueManager.hasPendingRequests`. -/
def hasPendingRequests (queue : List QueuedRequest) : Bool :=
  getQueueSize queue > 0

/-- `SyncQueueManager.getQueue` at the raw storage level.  `parse` models
`JSON.parse` at this store: `none` is a thrown parse error (caught,
yielding `[]`); a successful parse may be non-array JSON, which the source
returns as-is.  A falsy stored string (absent key or `""`) yields `[]`
without parsing. -/
def getQueueRaw (parse : String → Option (ParsedJson QueuedRequest))
    (stored : Option String) : ParsedJson QueuedRequest :=
  match stored with
  | none => .arrOf []
  | some s =>
    if s == "" then .arrOf []
    else
      match parse s with
      | none => .arrOf []
      | some v => v

/-- `getQueueSize` composed with the raw reader: `getQueue().length` is the
array length, the string length for a parsed JSON string, and `undefined`
(modelled `none`) for every other non-array value. -/
def getQueueSizeRaw (parse : String → Option (ParsedJson QueuedRequest))
    (stored : Option String) : Option Nat :=
  match getQueueRaw parse stored with
  | .arrOf l => some l.length
  | .nonArr (.jsonString s) => some s.length
  | .nonArr .jsonOther => none

/-- `hasPendingRequests` composed with the raw reader: `getQueueSize() > 0`,
where the JS comparison `undefined > 0` is `false`. -/
def hasPendingRequestsRaw (parse : String → Option (ParsedJson QueuedRequest))
    (stored : Option String) : Bool :=
  match getQueueSizeRaw parse stored with
  | some n => n > 0
  | none => false

/-- `removeFromQueue` composed with the raw reader: `queue.filter` throws a
`TypeError` (modelled `none`) when the read value is not an array. -/
def removeFromQueueRaw (parse : String → Option (ParsedJson QueuedRequest))
    (stored : Option String) (id : String) : Option (List QueuedRequest) :=
  match getQueueRaw parse stored with
  | .arrOf l => some (removeFromQueue l id)
  | .nonArr _ => none

end SyncQueueManager

/-- ASCII lowercasing, modelling `String.prototype.toLowerCase` on the
ASCII method/url strings this subsystem handles. -/
def lowerString (s : String) : String :=
  String.mk (s.data.map Char.toLower)

/-- ASCII uppercasing, modelling `String.prototype.toUpperCase`. -/
def upperString (s : String) : String :=
  String.mk (s.data.map Char.toUpper)

/-- Lowercased request method with `undefined → ""`
(`config.method?.toLowerCase() || ''`). -/
def methodLower (config : AxiosConfig) : String :=
  lowerString (config.method.getD "")

/-- The interceptors' mutation test: method is POST, PUT or DELETE. -/
def isMutationMethod (config : AxiosConfig) : Bool :=
  ["post", "put", "delete"].contains (methodLower config)

/-- `config.method?.toUpperCase()` interpolated into a template string:
JS renders `undefined` as the string `"undefined"`. -/
def methodUpperStr (config : AxiosConfig) : String :=
  match config.method with
  | some m => upperString m
  | none => "undefined"

/-- The characters after the last `sep` (the last piece of
`url.split(sep)`). -/
def lastSegAux (sep : Char) : List Char → List Char → List Char
  | [], cur => cur
  | c :: cs, cur => if c == sep then lastSegAux sep cs [] else lastSegAux sep cs (cur ++ [c])

/-- `config.url?.split('/').pop() || 'unknown'`: the last path segment;
`"unknown"` when the url is absent or ends in `/`. -/
def lastPathSegment (url : Option String) : String :=
  match url with
  | none => "unknown"
  | some u =>
    let seg := String.mk (lastSegAux '/' u.data [])
    if seg == "" then "unknown" else seg

/-- The cache-key slot for `config.data?.budget_period_id`: a number, or
`undefined` when the body lacks a period. -/
def keyPartOfOpt : Option Nat → KeyPart
  | none => .jsUndefined
  | some n => .num n

/-- `config.data?.budget_period_id || null` (JS `||`: `0` collapses to
null). -/
def bpidOrNull (body? : Option Body) : Option Nat :=
  let p := body?.bind (·.budget_period_id)
  if truthyNat p then p else none

/-- The updater `performOptimisticUpdate` passes to `setQueriesData`:
`old => !old ? [item] : (!Array.isArray(old) ? old : [item, ...old])`. -/
def prependUpd (item : CacheItem) : CacheVal → CacheVal
  | .jsUndefined => .arr [item]
  | .arr l => .arr (item :: l)
  | .other => .other

/-- The category lookup of the transaction branches: when both
`category_id` and `budget_period_id` are truthy and the
`['categories', pid]` cache entry is an array, find the record with
matching numeric id and embed a shallow copy of it. -/
def lookupCategory (qc : QueryCache) (body? : Option Body) : Option CategoryObj :=
  if truthyNat (body?.bind (·.category_id)) && truthyNat (body?.bind (·.budget_period_id)) then
    match getQueryData qc
        [.str "categories", .num ((body?.bind (·.budget_period_id)).getD 0)] with
    | .arr cats =>
      match cats.find? (fun c => c.itemId == ItemId.num ((body?.bind (·.category_id)).getD 0)) with
      | some found => some { id := found.itemId, body := found.payload }
      | none => none
    | _ => none
  else none

/-- Result of `performOptimisticUpdate`: the returned `OptimisticData` (or
null) and the updated in-memory cache and Display Cache. -/
structure OptResult where
  ret : Option OptimisticData
  qc : QueryCache
  display : List OfflineDisplayItem
deriving DecidableEq, Repr

/-- `performOptimisticUpdate` of `optimisticUpdates.ts`: only POST
requests; dispatch is the source's ordered if/else chain on url
substrings.  Transactions and planned transactions resolve and embed a
category; categories and budget periods update only the in-memory cache
(no Display Cache write in their branches). -/
def performOptimisticUpdate (qc : QueryCache) (display : List OfflineDisplayItem)
    (now : Nat) (rand : String) (config : AxiosConfig) : OptResult :=
  let url := config.url.getD ""
  if methodLower config != "post" then ⟨none, qc, display⟩
  else
    let tempId := "temp-" ++ toString now ++ "-" ++ rand
    let body := config.data.getD {}
    let pid := config.data.bind (·.budget_period_id)
    if strIncludes url "/transactions" && !strIncludes url "planned" then
      let queryKey := [KeyPart.str "transactions", keyPartOfOpt pid]
      let item := CacheItem.optimistic tempId body (some (lookupCategory qc config.data))
      ⟨some ⟨queryKey, tempId, item⟩,
       setQueriesData qc queryKey (prependUpd item),
       OfflineDisplayCache.addItem display tempId now .transaction (bpidOrNull config.data) item⟩
    else if strIncludes url "/planned-transactions" then
      let queryKey := [KeyPart.str "planned-transactions", keyPartOfOpt pid]
      let item := CacheItem.optimistic tempId body (some (lookupCategory qc config.data))
      ⟨some ⟨queryKey, tempId, item⟩,
       setQueriesData qc queryKey (prependUpd item),
       OfflineDisplayCache.addItem display tempId now .plannedTransaction (bpidOrNull config.data) item⟩
    else if strIncludes url "/currency-exchanges" then
      let queryKey := [KeyPart.str "currency-exchanges", keyPartOfOpt pid]
      let item := CacheItem.optimistic tempId body none
      ⟨some ⟨queryKey, tempId, item⟩,
       setQueriesData qc queryKey (prependUpd item),
       OfflineDisplayCache.addItem display tempId now .currencyExchange (bpidOrNull config.data) item⟩
    else if strIncludes url "/categories" then
      let queryKey := [KeyPart.str "categories"]
      let item := CacheItem.optimistic tempId body none
      ⟨some ⟨queryKey, tempId, item⟩,
       setQueriesData qc queryKey (prependUpd item),
       display⟩
    else if strIncludes url "/budget-periods" then
      let queryKey := [KeyPart.str "budget-periods"]
      let item := CacheItem.optimistic tempId body none
      ⟨some ⟨queryKey, tempId, item⟩,
       setQueriesData qc queryKey (prependUpd item),
       display⟩
    else ⟨none, qc, display⟩

/-- `removeOptimisticItem` of `optimisticUpdates.ts`: filters items with
matching `_tempId` out of every matching in-memory entry (non-arrays are
left alone) and removes the Display Cache record. -/
def removeOptimisticItem (qc : QueryCache) (display : List OfflineDisplayItem)
    (queryKey : List KeyPart) (tempId : String) :
    QueryCache × List OfflineDisplayItem :=
  let qc2 := setQueriesData qc queryKey fun old =>
    match old with
    | .arr l => .arr (l.filter fun item => item.tempId? != some tempId)
    | v => v
  (qc2, OfflineDisplayCache.removeItem display tempId)

/-- The five resource families of the dispatch chain (auxiliary classifier
abbreviating `performOptimisticUpdate`'s branch conditions, for stating
theorems; first match wins, as in the source). -/
inductive ResourceFamily
  | transactions
  | plannedTransactions
  | currencyExchanges
  | categories
  | budgetPeriods
deriving DecidableEq, Repr

/-- The branch of the dispatch chain a url falls into. -/
def resourceFamily (url : String) : Option ResourceFamily :=
  if strIncludes url "/transactions" && !strIncludes url "planned" then some .transactions
  else if strIncludes url "/planned-transactions" then some .plannedTransactions
  else if strIncludes url "/currency-exchanges" then some .currencyExchanges
  else if strIncludes url "/categories" then some .categories
  else if strIncludes url "/budget-periods" then some .budgetPeriods
  else none

/-- Families whose branch writes the placeholder to the Display Cache. -/
def ResourceFamily.displayCached : ResourceFamily → Bool
  | .transactions => true
  | .plannedTransactions => true
  | .currencyExchanges => true
  | .categories => false
  | .budgetPeriods => false

/-- Case-exact lookup of a header value (axios normalizes case; the
subsystem only ever writes `Authorization`). -/
def headerLookup (headers : List (String × String)) (name : String) : Option String :=
  (headers.find? fun p => p.1 == name).map (·.2)

/-- A request as dispatched on the wire: the config plus the effective
`Authorization` header after axios merges per-request headers over
instance defaults (per-request values take precedence per key). -/
structure IssuedRequest where
  config : AxiosConfig
  authHeader : Option String
deriving DecidableEq, Repr

/-- Effective `Authorization` on a dispatched request: the config's own
header when present (axios `mergeConfig` lets request-level headers
override instance defaults), else the instance default derived from the
stored token. -/
def effectiveAuthHeader (storedToken : Option String) (config : AxiosConfig) :
    Option String :=
  match headerLookup config.headers "Authorization" with
  | some v => some v
  | none => storedToken.map fun t => "Bearer " ++ t

/-- The browser/client state the subsystem reads and writes.  `hookOnline`
is the `useOnlineStatus` state consumed by `useOfflineSync`;
`navigatorOnLine` is `navigator.onLine` read by the request interceptor;
`queryClientReady` models whether the module-level query-client reference
has been installed; `jwtWorkspaceId` models the decoded
`current_workspace_id` of the current token; `now`/`rand` model
`Date.now()`/`Math.random()`; `network` records dispatched requests in
order; `invalidated` records a `queryClient.invalidateQueries()` call. -/
structure AppState where
  navigatorOnLine : Bool := true
  hookOnline : Bool := true
  queryClientReady : Bool := true
  qc : QueryCache := []
  display : List OfflineDisplayItem := []
  queue : List QueuedRequest := []
  token : Option String := none
  selectedAccount : Option String := none
  jwtWorkspaceId : Option Nat := none
  locationPath : String := "/"
  toasts : List Toast := []
  network : List IssuedRequest := []
  invalidated : Bool := false
  now : Nat := 0
  rand : String := "r"
deriving DecidableEq, Repr

/-- `getOfflineContext` of `client.ts`: workspace id decoded from the JWT
when a token is stored, account id parsed from the persisted selection
(`Number(saved)` modelled as `toNat?`). -/
def getOfflineContext (s : AppState) : OfflineContext :=
  { workspaceId :=
      match s.token with
      | some _ => s.jwtWorkspaceId
      | none => none
    accountId :=
      match s.selectedAccount with
      | some a => if a != "" then a.toNat? else none
      | none => none }

/-- The enqueue sequence both interceptors share: build the description,
attempt the optimistic update when the query client is installed, capture
context, enqueue, and show the success-styled toast. -/
def queueOfflineMutation (s : AppState) (config : AxiosConfig) : AppState :=
  let description := methodUpperStr config ++ " " ++ lastPathSegment config.url
  let r :=
    if s.queryClientReady then performOptimisticUpdate s.qc s.display s.now s.rand config
    else ⟨none, s.qc, s.display⟩
  let context := getOfflineContext s
  let queue2 :=
    (SyncQueueManager.addToQueue s.queue s.now s.rand config description r.ret (some context)).1
  { s with
      qc := r.qc
      display := r.display
      queue := queue2
      toasts := s.toasts ++ [.success "Change saved offline - will sync when online"] }

/-- Result of the request interceptor: proceed to the network, or abort
with the distinguished `OfflineError`. -/
inductive ReqIntResult
  | proceed (config : AxiosConfig)
  | offlineError
deriving DecidableEq, Repr

/-- The `api.interceptors.request` handler: an offline mutation is queued
(with optimistic update and toast) and the call aborted; everything else
proceeds. -/
def requestInterceptor (s : AppState) (config : AxiosConfig) :
    AppState × ReqIntResult :=
  if !s.navigatorOnLine && isMutationMethod config then
    (queueOfflineMutation s config, .offlineError)
  else (s, .proceed config)

/-- What the network returns for a dispatched request: a 2xx response, a
real non-2xx response, a connectivity failure (axios message
`"Network Error"`, no response), or another response-less rejection. -/
inductive NetOutcome
  | ok
  | httpError (status : Nat)
  | networkError
  | otherError
deriving DecidableEq, Repr

/-- What the caller of the HTTP client observes. -/
inductive ApiResult
  | success
  | offlineQueued
  | httpFailure (status : Nat)
  | failure
deriving DecidableEq, Repr

/-- The `api.interceptors.response` error handler: 401 outside the auth
routes clears the credential and navigates to `/login`; a response-less
`"Network Error"` on a mutation runs the offline enqueue sequence; every
other error passes through. -/
def responseInterceptor (s : AppState) (config : AxiosConfig) (out : NetOutcome) :
    AppState × ApiResult :=
  match out with
  | .ok => (s, .success)
  | .httpError status =>
    if status == 401 then
      let isAuthRoute := s.locationPath == "/login" || s.locationPath == "/register"
      if !isAuthRoute then
        ({ s with token := none, locationPath := "/login" }, .httpFailure 401)
      else (s, .httpFailure 401)
    else (s, .httpFailure status)
  | .networkError =>
    if isMutationMethod config then (queueOfflineMutation s config, .offlineQueued)
    else (s, .failure)
  | .otherError => (s, .failure)

/-- One request through the main `api` instance: request interceptor, then
(if not intercepted) dispatch on the wire, then response interceptor on
the network outcome. -/
def sendRequest (s : AppState) (config : AxiosConfig) (out : NetOutcome) :
    AppState × ApiResult :=
  match requestInterceptor s config with
  | (s1, .offlineError) => (s1, .offlineQueued)
  | (s1, .proceed cfg) =>
    let s2 := { s1 with
      network := s1.network ++ [⟨cfg, effectiveAuthHeader s1.token cfg⟩] }
    responseInterceptor s2 cfg out

/-- `validateRequestContext` of `useOfflineSync`: non-fatal warnings when
the captured workspace/account context differs from the current one; both
sides must be truthy for a comparison to fire. -/
def validateRequestContext (s : AppState) (request : QueuedRequest) : List String :=
  let currentWorkspaceId : Option Nat :=
    match s.token with
    | some _ => s.jwtWorkspaceId
    | none => none
  let currentAccountId : Option Nat :=
    match s.selectedAccount with
    | some a => if a != "" then a.toNat? else none
    | none => none
  let w1 :=
    if truthyNat request.workspaceId && truthyNat currentWorkspaceId
        && request.workspaceId != currentWorkspaceId then
      ["Request was created for workspace " ++ toString (request.workspaceId.getD 0)
        ++ " but current workspace is " ++ toString (currentWorkspaceId.getD 0)]
    else []
  let w2 :=
    if truthyNat request.accountId && truthyNat currentAccountId
        && request.accountId != currentAccountId then
      ["Request was created for account " ++ toString (request.accountId.getD 0)
        ++ " but current account is " ++ toString (currentAccountId.getD 0)]
    else []
  w1 ++ w2

/-- The `{success, processed, failed}` record `syncQueue` returns. -/
structure SyncResult where
  success : Bool
  processed : Nat
  failed : Nat
deriving DecidableEq, Repr

/-- The React state of the `useOfflineSync` hook. -/
structure SyncState where
  isSyncing : Bool := false
  progressCurrent : Nat := 0
  progressTotal : Nat := 0
  syncErrors : List String := []
deriving DecidableEq, Repr

/-- Accumulator of the drain loop: app state, hook state, and the local
`processed`/`failed`/`errors` of the running pass. -/
structure LoopAcc where
  s : AppState
  st : SyncState
  processed : Nat
  failed : Nat
  errors : List String
deriving DecidableEq, Repr

/-- One iteration of `syncQueue`'s `for` loop over the snapshot: update
progress, validate context (warnings are logged only), replay the request
on a fresh interceptor-free axios instance whose default `Authorization`
carries the currently stored token (per-request captured headers still
take precedence under axios's merge), then on either outcome remove the
optimistic placeholder (when attached) and dequeue the entry; `net`
decides whether the replay succeeds. -/
def syncStep (net : QueuedRequest → Bool) (total : Nat) (i : Nat)
    (request : QueuedRequest) (acc : LoopAcc) : LoopAcc :=
  let st := { acc.st with progressCurrent := i + 1, progressTotal := total }
  let _warnings := validateRequestContext acc.s request
  let s := { acc.s with
    network := acc.s.network ++
      [IssuedRequest.mk request.config (effectiveAuthHeader acc.s.token request.config)] }
  if net request then
    let rm :=
      match request.optimisticData with
      | some od => removeOptimisticItem s.qc s.display od.queryKey od.tempId
      | none => (s.qc, s.display)
    { s := { s with
        qc := rm.1
        display := rm.2
        queue := SyncQueueManager.removeFromQueue s.queue request.id }
      st := st
      processed := acc.processed + 1
      failed := acc.failed
      errors := acc.errors }
  else
    let errors := acc.errors ++ ["Failed: " ++ request.description]
    let rm :=
      match request.optimisticData with
      | some od => removeOptimisticItem s.qc s.display od.queryKey od.tempId
      | none => (s.qc, s.display)
    { s := { s with
        qc := rm.1
        display := rm.2
        queue := SyncQueueManager.removeFromQueue s.queue request.id }
      st := st
      processed := acc.processed
      failed := acc.failed + 1
      errors := errors }

/-- The `for (let i = 0; i < queue.length; i++)` loop of `syncQueue`,
processing the snapshot strictly sequentially: each entry's outcome is
consumed before the next entry is touched. -/
def drainLoop (net : QueuedRequest → Bool) (total : Nat) :
    Nat → List QueuedRequest → LoopAcc → LoopAcc
  | _, [], acc => acc
  | i, r :: rest, acc => drainLoop net total (i + 1) rest (syncStep net total i r acc)

/-- `syncQueue` of `useOfflineSync`: snapshot the queue; empty → report
zero; offline → error toast, abort without touching the queue; otherwise
drain the snapshot sequentially, invalidate all queries, surface one
aggregate toast, and report `{success: failed === 0, processed, failed}`.
There is no check of `isSyncing` at entry. -/
def syncQueueRun (s0 : AppState) (st0 : SyncState) (net : QueuedRequest → Bool) :
    AppState × SyncState × SyncResult :=
  let queue := s0.queue
  if queue.length == 0 then
    (s0, st0, ⟨true, 0, 0⟩)
  else if !s0.hookOnline then
    ({ s0 with toasts := s0.toasts ++ [.error "Cannot sync while offline"] }, st0,
     ⟨false, 0, 0⟩)
  else
    let st1 := { st0 with
      isSyncing := true
      progressCurrent := 0
      progressTotal := queue.length
      syncErrors := [] }
    let acc := drainLoop net queue.length 0 queue ⟨s0, st1, 0, 0, []⟩
    let s2 := { acc.s with
      invalidated := true
      toasts := acc.s.toasts ++
        [if acc.failed == 0 then
           Toast.success ("Successfully synced " ++ toString acc.processed ++ " changes")
         else
           Toast.error ("Synced " ++ toString acc.processed ++ " changes, "
             ++ toString acc.failed ++ " failed")] }
    let st2 := { acc.st with isSyncing := false, syncErrors := acc.errors }
    (s2, st2, ⟨acc.failed == 0, acc.processed, acc.failed⟩)

/-- The render condition of `OfflineIndicator`'s manual "Sync Up" button:
`isOnline && hasPendingChanges && !isSyncing`.  This is the only re-entry
protection around the sync trigger. -/
def showSyncButton (isOnline hasPendingChanges isSyncing : Bool) : Bool :=
  isOnline && hasPendingChanges && !isSyncing

/-- The `` `temp-${Date.now()}-${rand}` `` id generated for a placeholder. -/
def tempIdOf (now : Nat) (rand : String) : String :=
  "temp-" ++ toString now ++ "-" ++ rand

/-- The Display Cache entity tag of each recognized family. -/
def entityTypeOf : ResourceFamily → EntityType
  | .transactions => .transaction
  | .plannedTransactions => .plannedTransaction
  | .currencyExchanges => .currencyExchange
  | .categories => .category
  | .budgetPeriods => .budgetPeriod

/-- The cache key each `performOptimisticUpdate` branch writes under:
period-scoped for the three transaction-like families, bare for categories
and budget periods. -/
def familyQueryKey (config : AxiosConfig) : ResourceFamily → List KeyPart
  | .transactions =>
    [.str "transactions", keyPartOfOpt (config.data.bind (·.budget_period_id))]
  | .plannedTransactions =>
    [.str "planned-transactions", keyPartOfOpt (config.data.bind (·.budget_period_id))]
  | .currencyExchanges =>
    [.str "currency-exchanges", keyPartOfOpt (config.data.bind (·.budget_period_id))]
  | .categories => [.str "categories"]
  | .budgetPeriods => [.str "budget-periods"]

/-- The placeholder each branch synthesizes: transactions and planned
transactions carry an (attempted) embedded category, the rest have no
category field. -/
def placeholderItem (qc : QueryCache) (config : AxiosConfig) (tid : String) :
    ResourceFamily → CacheItem
  | .transactions =>
    .optimistic tid (config.data.getD {}) (some (lookupCategory qc config.data))
  | .plannedTransactions =>
    .optimistic tid (config.data.getD {}) (some (lookupCategory qc config.data))
  | .currencyExchanges => .optimistic tid (config.data.getD {}) none
  | .categories => .optimistic tid (config.data.getD {}) none
  | .budgetPeriods => .optimistic tid (config.data.getD {}) none

/-- No entry of the cache matching filter key `k` whose data is an array
holds an item with `_tempId = tid`. -/
def qcCleanFor (k : List KeyPart) (tid : String) (qc : QueryCache) : Prop :=
  ∀ e ∈ qc, keyFilterMatches k e.key = true →
    ∀ items, e.val = .arr items → ∀ it ∈ items, it.tempId? ≠ some tid

/-! ### Concrete states used by counterexamples and witnesses -/

def reentryReq : QueuedRequest :=
  { id := "1-r", timestamp := 1,
    config := { method := some "post", url := some "/transactions" },
    description := "POST transactions" }

def reentryState : AppState := { queue := [reentryReq] }

def staleReq : QueuedRequest :=
  { id := "1-r", timestamp := 1,
    config := { method := some "post", url := some "/transactions",
                headers := [("Authorization", "Bearer old")] },
    description := "POST transactions" }

def staleState : AppState := { token := some "new", queue := [staleReq] }

def c4Config : AxiosConfig :=
  { method := some "post", url := some "/categories",
    data := some { budget_period_id := some 7 } }

def c4State : AppState := { navigatorOnLine := false }

def c5Qc : QueryCache := [{ key := [.str "categories"], val := .arr [] }]

def c5Config : AxiosConfig :=
  { method := some "post", url := some "/categories",
    data := some { budget_period_id := some 7 } }

def c8State : AppState := { locationPath := "/dashboard", token := some "tok" }

def nonArrayParseQ : String → Option (ParsedJson QueuedRequest) := fun s =>
  if s == "bad" then none
  else if s == "5" then some (.nonArr .jsonOther)
  else some (.arrOf [])

def nonArrayParseD : String → Option (ParsedJson OfflineDisplayItem) := fun s =>
  if s == "bad" then none
  else if s == "5" then some (.nonArr .jsonOther)
  else some (.arrOf [])

def c2Od : OptimisticData :=
  ⟨[.str "transactions", .num 7], "temp-1-r",
   CacheItem.optimistic "temp-1-r" { budget_period_id := some 7 } (some none)⟩

def c2Req : QueuedRequest :=
  { id := "1-r", timestamp := 1,
    config := { method := some "post", url := some "/transactions",
                data := some { budget_period_id := some 7 } },
    description := "POST transactions", optimisticData := some c2Od }

def c2State : AppState :=
  { queue := [c2Req],
    display := [⟨"temp-1-r", 1, .transaction, some 7,
      CacheItem.optimistic "temp-1-r" { budget_period_id := some 7 } (some none)⟩] }

def fifoReq1 : QueuedRequest :=
  { id := "1-a", timestamp := 1,
    config := { method := some "post", url := some "/categories" },
    description := "POST categories" }

def fifoReq2 : QueuedRequest :=
  { id := "2-b", timestamp := 2,
    config := { method := some "post", url := some "/transactions" },
    description := "POST transactions" }

def fifoState : AppState := { queue := [fifoReq1, fifoReq2] }

def fifoOffState : AppState := { navigatorOnLine := false }

def fifoCfg : AxiosConfig := { method := some "put", url := some "/categories/3" }

def c6Req : QueuedRequest :=
  { id := "1-c", timestamp := 1,
    config := { method := some "post", url := some "/transactions" },
    description := "POST transactions" }

def c6State : AppState := { queue := [c6Req] }

def c4WCfg : AxiosConfig :=
  { method := some "post", url := some "/transactions",
    data := some { budget_period_id := some 7 } }

def c4WState : AppState := { navigatorOnLine := false }

def c5WCfg : AxiosConfig :=
  { method := some "post", url := some "/transactions",
    data := some { budget_period_id := some 7 } }

def c5WOd : OptimisticData :=
  ⟨[.str "transactions", .num 7], "temp-5-r",
   CacheItem.optimistic "temp-5-r" { budget_period_id := some 7 } (some none)⟩

def c5WReq : QueuedRequest :=
  { id := "5-r", timestamp := 5, config := c5WCfg,
    description := "POST transactions", optimisticData := some c5WOd }

def c5WState : AppState := { queue := [c5WReq] }

def c7Cfg : AxiosConfig := { method := some "get", url := some "/transactions" }

def c7State : AppState := { navigatorOnLine := false }


/-! ### Lemmas about one drain-loop iteration -/

theorem filter_and_comm (l : List α) (p q : α → Bool) :
    l.filter (fun a => p a && q a) = l.filter (fun a => q a && p a) := by
  apply List.filter_congr
  intro a _
  exact Bool.and_comm _ _

theorem syncStep_s_queue (net : QueuedRequest → Bool) (total i : Nat)
    (r : QueuedRequest) (acc : LoopAcc) :
    (syncStep net total i r acc).s.queue =
      SyncQueueManager.removeFromQueue acc.s.queue r.id := by
  simp only [syncStep]
  split <;> rfl

theorem syncStep_s_display (net : QueuedRequest → Bool) (total i : Nat)
    (r : QueuedRequest) (acc : LoopAcc) :
    (syncStep net total i r acc).s.display =
      match r.optimisticData with
      | some od => OfflineDisplayCache.removeItem acc.s.display od.tempId
      | none => acc.s.display := by
  cases hod : r.optimisticData
  all_goals
    simp only [syncStep, removeOptimisticItem, hod]
    split <;> rfl

theorem syncStep_s_qc (net : QueuedRequest → Bool) (total i : Nat)
    (r : QueuedRequest) (acc : LoopAcc) :
    (syncStep net total i r acc).s.qc =
      match r.optimisticData with
      | some od => (removeOptimisticItem acc.s.qc acc.s.display od.queryKey od.tempId).1
      | none => acc.s.qc := by
  cases hod : r.optimisticData
  all_goals
    simp only [syncStep, hod]
    split <;> rfl

theorem syncStep_s_network (net : QueuedRequest → Bool) (total i : Nat)
    (r : QueuedRequest) (acc : LoopAcc) :
    (syncStep net total i r acc).s.network =
      acc.s.network ++
        [IssuedRequest.mk r.config (effectiveAuthHeader acc.s.token r.config)] := by
  simp only [syncStep]
  split <;> rfl

theorem syncStep_s_token (net : QueuedRequest → Bool) (total i : Nat)
    (r : QueuedRequest) (acc : LoopAcc) :
    (syncStep net total i r acc).s.token = acc.s.token := by
  simp only [syncStep]
  split <;> rfl

theorem syncStep_s_toasts (net : QueuedRequest → Bool) (total i : Nat)
    (r : QueuedRequest) (acc : LoopAcc) :
    (syncStep net total i r acc).s.toasts = acc.s.toasts := by
  simp only [syncStep]
  split <;> rfl

theorem syncStep_processed (net : QueuedRequest → Bool) (total i : Nat)
    (r : QueuedRequest) (acc : LoopAcc) :
    (syncStep net total i r acc).processed =
      acc.processed + (if net r then 1 else 0) := by
  simp only [syncStep]
  split <;> simp_all

theorem syncStep_failed (net : QueuedRequest → Bool) (total i : Nat)
    (r : QueuedRequest) (acc : LoopAcc) :
    (syncStep net total i r acc).failed =
      acc.failed + (if net r then 0 else 1) := by
  simp only [syncStep]
  split <;> simp_all

theorem syncStep_errors (net : QueuedRequest → Bool) (total i : Nat)
    (r : QueuedRequest) (acc : LoopAcc) :
    (syncStep net total i r acc).errors =
      acc.errors ++ (if net r then [] else ["Failed: " ++ r.description]) := by
  simp only [syncStep]
  split <;> simp_all

/-! ### Characterization of the full drain loop -/

theorem drainLoop_queue (net : QueuedRequest → Bool) (total : Nat)
    (l : List QueuedRequest) :
    ∀ (i : Nat) (acc : LoopAcc),
      (drainLoop net total i l acc).s.queue =
        acc.s.queue.filter fun q => l.all fun r => q.id != r.id := by
  induction l with
  | nil => intro i acc; simp [drainLoop]
  | cons r rest ih =>
    intro i acc
    rw [drainLoop, ih, syncStep_s_queue]
    unfold SyncQueueManager.removeFromQueue
    rw [List.filter_filter]
    apply List.filter_congr
    intro q _
    simp [Bool.and_comm]

theorem drainLoop_display (net : QueuedRequest → Bool) (total : Nat)
    (l : List QueuedRequest) :
    ∀ (i : Nat) (acc : LoopAcc),
      (drainLoop net total i l acc).s.display =
        acc.s.display.filter fun it => l.all fun r =>
          match r.optimisticData with
          | some od => it.tempId != od.tempId
          | none => true := by
  induction l with
  | nil => intro i acc; simp [drainLoop]
  | cons r rest ih =>
    intro i acc
    rw [drainLoop, ih, syncStep_s_display]
    cases hod : r.optimisticData with
    | none =>
      apply List.filter_congr
      intro it _
      simp [hod]
    | some od =>
      unfold OfflineDisplayCache.removeItem
      rw [List.filter_filter]
      apply List.filter_congr
      intro it _
      simp [hod, Bool.and_comm]

theorem drainLoop_token (net : QueuedRequest → Bool) (total : Nat)
    (l : List QueuedRequest) :
    ∀ (i : Nat) (acc : LoopAcc),
      (drainLoop net total i l acc).s.token = acc.s.token := by
  induction l with
  | nil => intro i acc; rfl
  | cons r rest ih =>
    intro i acc
    rw [drainLoop, ih, syncStep_s_token]

theorem drainLoop_toasts (net : QueuedRequest → Bool) (total : Nat)
    (l : List QueuedRequest) :
    ∀ (i : Nat) (acc : LoopAcc),
      (drainLoop net total i l acc).s.toasts = acc.s.toasts := by
  induction l with
  | nil => intro i acc; rfl
  | cons r rest ih =>
    intro i acc
    rw [drainLoop, ih, syncStep_s_toasts]

theorem drainLoop_network (net : QueuedRequest → Bool) (total : Nat)
    (l : List QueuedRequest) :
    ∀ (i : Nat) (acc : LoopAcc),
      (drainLoop net total i l acc).s.network =
        acc.s.network ++ l.map fun r =>
          IssuedRequest.mk r.config (effectiveAuthHeader acc.s.token r.config) := by
  induction l with
  | nil => intro i acc; simp [drainLoop]
  | cons r rest ih =>
    intro i acc
    rw [drainLoop, ih, syncStep_s_network, syncStep_s_token]
    simp

theorem drainLoop_processed (net : QueuedRequest → Bool) (total : Nat)
    (l : List QueuedRequest) :
    ∀ (i : Nat) (acc : LoopAcc),
      (drainLoop net total i l acc).processed =
        acc.processed + l.countP (fun r => net r) := by
  induction l with
  | nil => intro i acc; simp [drainLoop]
  | cons r rest ih =>
    intro i acc
    rw [drainLoop, ih, syncStep_processed, List.countP_cons]
    cases h : net r
    all_goals simp [h]
    all_goals omega

theorem drainLoop_failed (net : QueuedRequest → Bool) (total : Nat)
    (l : List QueuedRequest) :
    ∀ (i : Nat) (acc : LoopAcc),
      (drainLoop net total i l acc).failed =
        acc.failed + l.countP (fun r => !net r) := by
  induction l with
  | nil => intro i acc; simp [drainLoop]
  | cons r rest ih =>
    intro i acc
    rw [drainLoop, ih, syncStep_failed, List.countP_cons]
    cases h : net r
    all_goals simp [h]
    all_goals omega

theorem drainLoop_errors (net : QueuedRequest → Bool) (total : Nat)
    (l : List QueuedRequest) :
    ∀ (i : Nat) (acc : LoopAcc),
      (drainLoop net total i l acc).errors =
        acc.errors ++
          (l.filter fun r => !net r).map fun r => "Failed: " ++ r.description := by
  induction l with
  | nil => intro i acc; simp [drainLoop]
  | cons r rest ih =>
    intro i acc
    rw [drainLoop, ih, syncStep_errors]
    cases h : net r <;> simp [h, List.filter_cons]

/-! ### Dispatch and invariant lemmas -/

theorem perform_spec (qc : QueryCache) (d : List OfflineDisplayItem)
    (now : Nat) (rand : String) (config : AxiosConfig) (f : ResourceFamily)
    (hpost : methodLower config = "post")
    (hf : resourceFamily (config.url.getD "") = some f) :
    performOptimisticUpdate qc d now rand config =
      ⟨some ⟨familyQueryKey config f, tempIdOf now rand,
             placeholderItem qc config (tempIdOf now rand) f⟩,
       setQueriesData qc (familyQueryKey config f)
         (prependUpd (placeholderItem qc config (tempIdOf now rand) f)),
       if f.displayCached then
         OfflineDisplayCache.addItem d (tempIdOf now rand) now (entityTypeOf f)
           (bpidOrNull config.data) (placeholderItem qc config (tempIdOf now rand) f)
       else d⟩ := by
  unfold resourceFamily at hf
  unfold performOptimisticUpdate
  simp only [hpost, bne_self_eq_false, Bool.false_eq_true, if_false]
  split at hf
  case isTrue h1 =>
    cases hf
    simp [h1, tempIdOf, familyQueryKey, placeholderItem, entityTypeOf, ResourceFamily.displayCached]
  case isFalse h1 =>
    split at hf
    case isTrue h2 =>
      cases hf
      simp [h1, h2, tempIdOf, familyQueryKey, placeholderItem, entityTypeOf, ResourceFamily.displayCached]
    case isFalse h2 =>
      split at hf
      case isTrue h3 =>
        cases hf
        simp [h1, h2, h3, tempIdOf, familyQueryKey, placeholderItem, entityTypeOf, ResourceFamily.displayCached]
      case isFalse h3 =>
        split at hf
        case isTrue h4 =>
          cases hf
          simp [h1, h2, h3, h4, tempIdOf, familyQueryKey, placeholderItem, entityTypeOf, ResourceFamily.displayCached]
        case isFalse h4 =>
          split at hf
          case isTrue h5 =>
            cases hf
            simp [h1, h2, h3, h4, h5, tempIdOf, familyQueryKey, placeholderItem, entityTypeOf, ResourceFamily.displayCached]
          case isFalse h5 =>
            cases hf

theorem perform_not_post (qc : QueryCache) (d : List OfflineDisplayItem)
    (now : Nat) (rand : String) (config : AxiosConfig)
    (h : methodLower config ≠ "post") :
    performOptimisticUpdate qc d now rand config = ⟨none, qc, d⟩ := by
  unfold performOptimisticUpdate
  simp [h]

theorem perform_unrecognized (qc : QueryCache) (d : List OfflineDisplayItem)
    (now : Nat) (rand : String) (config : AxiosConfig)
    (h : resourceFamily (config.url.getD "") = none) :
    performOptimisticUpdate qc d now rand config = ⟨none, qc, d⟩ := by
  by_cases hp : methodLower config = "post"
  · unfold resourceFamily at h
    unfold performOptimisticUpdate
    simp only [hp, bne_self_eq_false, Bool.false_eq_true, if_false]
    split at h
    next h1 => exact Option.noConfusion h
    next h1 =>
      split at h
      next h2 => exact Option.noConfusion h
      next h2 =>
        split at h
        next h3 => exact Option.noConfusion h
        next h3 =>
          split at h
          next h4 => exact Option.noConfusion h
          next h4 =>
            split at h
            next h5 => exact Option.noConfusion h
            next h5 => simp [h1, h2, h3, h4, h5]
  · exact perform_not_post qc d now rand config hp

theorem syncStep_s_eq (net : QueuedRequest → Bool) (total i : Nat)
    (r : QueuedRequest) (a b : LoopAcc) (hs : a.s = b.s) :
    (syncStep net total i r a).s = (syncStep net total i r b).s := by
  cases h : net r
  all_goals simp [syncStep, hs, h]

theorem drainLoop_agree (net : QueuedRequest → Bool) (total : Nat)
    (l : List QueuedRequest) :
    ∀ (i : Nat) (a b : LoopAcc), a.s = b.s → a.processed = b.processed →
      a.failed = b.failed → a.errors = b.errors →
      (drainLoop net total i l a).s = (drainLoop net total i l b).s ∧
      (drainLoop net total i l a).processed = (drainLoop net total i l b).processed ∧
      (drainLoop net total i l a).failed = (drainLoop net total i l b).failed ∧
      (drainLoop net total i l a).errors = (drainLoop net total i l b).errors := by
  induction l with
  | nil =>
    intro i a b hs hp hf he
    exact ⟨hs, hp, hf, he⟩
  | cons r rest ih =>
    intro i a b hs hp hf he
    rw [drainLoop, drainLoop]
    apply ih
    · exact syncStep_s_eq net total i r a b hs
    · rw [syncStep_processed, syncStep_processed, hp]
    · rw [syncStep_failed, syncStep_failed, hf]
    · rw [syncStep_errors, syncStep_errors, he]

theorem removeOpt_clean (qc : QueryCache) (d : List OfflineDisplayItem)
    (k : List KeyPart) (tid : String) :
    qcCleanFor k tid (removeOptimisticItem qc d k tid).1 := by
  intro e he hmatch items hval it hit
  simp only [removeOptimisticItem, setQueriesData, List.mem_map] at he
  obtain ⟨e0, he0, heq⟩ := he
  by_cases hm : keyFilterMatches k e0.key = true
  · rw [if_pos hm] at heq
    subst heq
    simp only at hval
    cases hv : e0.val
    · rw [hv] at hval; cases hval
    · rw [hv] at hval
      simp only at hval
      cases hval
      have := List.mem_filter.mp hit
      simpa [bne_iff_ne] using this.2
    · rw [hv] at hval; cases hval
  · rw [if_neg hm] at heq
    subst heq
    exact absurd hmatch hm

theorem removeOpt_preserves_clean (qc : QueryCache) (d : List OfflineDisplayItem)
    (k : List KeyPart) (tid : String) (k2 : List KeyPart) (tid2 : String)
    (h : qcCleanFor k tid qc) :
    qcCleanFor k tid (removeOptimisticItem qc d k2 tid2).1 := by
  intro e he hmatch items hval it hit
  simp only [removeOptimisticItem, setQueriesData, List.mem_map] at he
  obtain ⟨e0, he0, heq⟩ := he
  by_cases hm : keyFilterMatches k2 e0.key = true
  · rw [if_pos hm] at heq
    subst heq
    simp only at hval hmatch
    cases hv : e0.val
    · rw [hv] at hval; cases hval
    · rw [hv] at hval
      simp only at hval
      cases hval
      have hmem := (List.mem_filter.mp hit).1
      exact h e0 he0 hmatch _ hv it hmem
    · rw [hv] at hval; cases hval
  · rw [if_neg hm] at heq
    subst heq
    exact h e0 he0 hmatch items hval it hit

theorem syncStep_preserves_clean (net : QueuedRequest → Bool) (total i : Nat)
    (r : QueuedRequest) (acc : LoopAcc) (k : List KeyPart) (tid : String)
    (h : qcCleanFor k tid acc.s.qc) :
    qcCleanFor k tid (syncStep net total i r acc).s.qc := by
  rw [syncStep_s_qc]
  cases hod : r.optimisticData
  · exact h
  · exact removeOpt_preserves_clean _ _ _ _ _ _ h

theorem syncStep_establishes_clean (net : QueuedRequest → Bool) (total i : Nat)
    (r : QueuedRequest) (acc : LoopAcc) (od : OptimisticData)
    (hod : r.optimisticData = some od) :
    qcCleanFor od.queryKey od.tempId (syncStep net total i r acc).s.qc := by
  rw [syncStep_s_qc, hod]
  exact removeOpt_clean _ _ _ _

theorem drainLoop_preserves_clean (net : QueuedRequest → Bool) (total : Nat)
    (l : List QueuedRequest) :
    ∀ (i : Nat) (acc : LoopAcc) (k : List KeyPart) (tid : String),
      qcCleanFor k tid acc.s.qc →
      qcCleanFor k tid (drainLoop net total i l acc).s.qc := by
  induction l with
  | nil => intro i acc k tid h; exact h
  | cons r rest ih =>
    intro i acc k tid h
    exact ih _ _ _ _ (syncStep_preserves_clean net total i r acc k tid h)

theorem drainLoop_clean_of_mem (net : QueuedRequest → Bool) (total : Nat)
    (l : List QueuedRequest) :
    ∀ (i : Nat) (acc : LoopAcc) (r : QueuedRequest) (od : OptimisticData),
      r ∈ l → r.optimisticData = some od →
      qcCleanFor od.queryKey od.tempId (drainLoop net total i l acc).s.qc := by
  induction l with
  | nil => intro _ _ _ _ h; cases h
  | cons q rest ih =>
    intro i acc r od hmem hod
    rw [drainLoop]
    rcases List.mem_cons.mp hmem with h | h
    · subst h
      exact drainLoop_preserves_clean net total rest _ _ _ _
        (syncStep_establishes_clean net total i r acc od hod)
    · exact ih _ _ r od h hod

theorem setQueriesData_prepend_mem (qc : QueryCache) (k : List KeyPart)
    (item : CacheItem) :
    ∀ e ∈ setQueriesData qc k (prependUpd item), keyFilterMatches k e.key = true →
      ∀ items, e.val = .arr items → item ∈ items := by
  intro e he hmatch items hval
  simp only [setQueriesData, List.mem_map] at he
  obtain ⟨e0, he0, heq⟩ := he
  by_cases hm : keyFilterMatches k e0.key = true
  · rw [if_pos hm] at heq
    subst heq
    simp only at hval
    cases hv : e0.val
    · rw [hv] at hval
      simp only [prependUpd] at hval
      cases hval
      exact List.mem_singleton.mpr rfl
    · rw [hv] at hval
      simp only [prependUpd] at hval
      cases hval
      exact List.mem_cons_self _ _
    · rw [hv] at hval
      simp only [prependUpd] at hval
      cases hval
  · rw [if_neg hm] at heq
    subst heq
    exact absurd hmatch hm

/-! ### Whole-run projection lemmas -/

theorem queue_length_ne_zero (l : List QueuedRequest) (h : l ≠ []) :
    (l.length == 0) = false := by
  simp [List.length_eq_zero, h]

theorem syncQueueRun_network (s0 : AppState) (st0 : SyncState)
    (net : QueuedRequest → Bool) (hon : s0.hookOnline = true) :
    (syncQueueRun s0 st0 net).1.network =
      s0.network ++ s0.queue.map fun r =>
        IssuedRequest.mk r.config (effectiveAuthHeader s0.token r.config) := by
  by_cases hne : s0.queue = []
  · unfold syncQueueRun
    simp [hne]
  · unfold syncQueueRun
    simp only [queue_length_ne_zero s0.queue hne, hon, Bool.not_true,
      Bool.false_eq_true, if_false]
    rw [drainLoop_network]

theorem syncQueueRun_queue (s0 : AppState) (st0 : SyncState)
    (net : QueuedRequest → Bool) (hon : s0.hookOnline = true) :
    (syncQueueRun s0 st0 net).1.queue =
      s0.queue.filter fun q => s0.queue.all fun r => q.id != r.id := by
  by_cases hne : s0.queue = []
  · unfold syncQueueRun
    simp [hne]
  · unfold syncQueueRun
    simp only [queue_length_ne_zero s0.queue hne, hon, Bool.not_true,
      Bool.false_eq_true, if_false]
    rw [drainLoop_queue]

theorem syncQueueRun_display (s0 : AppState) (st0 : SyncState)
    (net : QueuedRequest → Bool) (hon : s0.hookOnline = true) :
    (syncQueueRun s0 st0 net).1.display =
      s0.display.filter fun it => s0.queue.all fun r =>
        match r.optimisticData with
        | some od => it.tempId != od.tempId
        | none => true := by
  by_cases hne : s0.queue = []
  · unfold syncQueueRun
    simp only [hne]
    simp [List.filter_eq_self]
  · unfold syncQueueRun
    simp only [queue_length_ne_zero s0.queue hne, hon, Bool.not_true,
      Bool.false_eq_true, if_false]
    rw [drainLoop_display]

theorem syncQueueRun_result (s0 : AppState) (st0 : SyncState)
    (net : QueuedRequest → Bool) (hon : s0.hookOnline = true) :
    (syncQueueRun s0 st0 net).2.2 =
      ⟨s0.queue.countP (fun r => !net r) == 0,
       s0.queue.countP (fun r => net r),
       s0.queue.countP (fun r => !net r)⟩ := by
  by_cases hne : s0.queue = []
  · unfold syncQueueRun
    simp [hne]
  · unfold syncQueueRun
    simp only [queue_length_ne_zero s0.queue hne, hon, Bool.not_true,
      Bool.false_eq_true, if_false]
    rw [drainLoop_processed, drainLoop_failed]
    simp

theorem syncQueueRun_invalidated (s0 : AppState) (st0 : SyncState)
    (net : QueuedRequest → Bool) (hne : s0.queue ≠ []) (hon : s0.hookOnline = true) :
    (syncQueueRun s0 st0 net).1.invalidated = true := by
  unfold syncQueueRun
  simp only [queue_length_ne_zero s0.queue hne, hon, Bool.not_true,
    Bool.false_eq_true, if_false]

theorem syncQueueRun_toasts (s0 : AppState) (st0 : SyncState)
    (net : QueuedRequest → Bool) (hne : s0.queue ≠ []) (hon : s0.hookOnline = true) :
    (syncQueueRun s0 st0 net).1.toasts =
      s0.toasts ++
        [if s0.queue.countP (fun r => !net r) == 0 then
           Toast.success ("Successfully synced "
             ++ toString (s0.queue.countP fun r => net r) ++ " changes")
         else
           Toast.error ("Synced " ++ toString (s0.queue.countP fun r => net r)
             ++ " changes, " ++ toString (s0.queue.countP fun r => !net r)
             ++ " failed")] := by
  unfold syncQueueRun
  simp only [queue_length_ne_zero s0.queue hne, hon, Bool.not_true,
    Bool.false_eq_true, if_false]
  rw [drainLoop_toasts, drainLoop_processed, drainLoop_failed]
  simp only [Nat.zero_add]

theorem syncQueueRun_errors (s0 : AppState) (st0 : SyncState)
    (net : QueuedRequest → Bool) (hne : s0.queue ≠ []) (hon : s0.hookOnline = true) :
    (syncQueueRun s0 st0 net).2.1.syncErrors =
      (s0.queue.filter fun r => !net r).map fun r => "Failed: " ++ r.description := by
  unfold syncQueueRun
  simp only [queue_length_ne_zero s0.queue hne, hon, Bool.not_true,
    Bool.false_eq_true, if_false]
  rw [drainLoop_errors]
  simp

theorem syncQueueRun_qcClean (s0 : AppState) (st0 : SyncState)
    (net : QueuedRequest → Bool) (r : QueuedRequest) (od : OptimisticData)
    (hon : s0.hookOnline = true) (hmem : r ∈ s0.queue)
    (hod : r.optimisticData = some od) :
    qcCleanFor od.queryKey od.tempId (syncQueueRun s0 st0 net).1.qc := by
  have hne : s0.queue ≠ [] := by
    intro h
    rw [h] at hmem
    cases hmem
  unfold syncQueueRun
  simp only [queue_length_ne_zero s0.queue hne, hon, Bool.not_true,
    Bool.false_eq_true, if_false]
  exact drainLoop_clean_of_mem net s0.queue.length s0.queue 0 _ r od hmem hod

/-! ### Interceptor helper lemmas -/

theorem respInt_preserves (s : AppState) (config : AxiosConfig) (out : NetOutcome)
    (h : out = .networkError → isMutationMethod config = false) :
    (responseInterceptor s config out).1.queue = s.queue ∧
    (responseInterceptor s config out).1.network = s.network := by
  cases out
  · exact ⟨rfl, rfl⟩
  case httpError status =>
    unfold responseInterceptor
    by_cases h4 : (status == 401) = true
    · simp only [h4, if_true]
      by_cases ha : (s.locationPath == "/login" || s.locationPath == "/register") = true
      · simp [ha]
      · simp [ha]
    · simp [h4]
  case networkError =>
    unfold responseInterceptor
    simp [h rfl]
  · exact ⟨rfl, rfl⟩

theorem respInt_not_offlineQueued (s : AppState) (config : AxiosConfig) (out : NetOutcome)
    (hm : isMutationMethod config = false) :
    (responseInterceptor s config out).2 ≠ .offlineQueued := by
  cases out
  · intro h; cases h
  case httpError status =>
    unfold responseInterceptor
    by_cases h4 : (status == 401) = true
    · simp only [h4, if_true]
      by_cases ha : (s.locationPath == "/login" || s.locationPath == "/register") = true
      · simp [ha]
      · simp [ha]
    · simp [h4]
  case networkError =>
    unfold responseInterceptor
    simp [hm]
  · intro h; cases h

/-! ### Claim theorems -/

/-- C1 (amended): the sync engine performs no running-flag check at entry — the
outcome and resulting application state of `syncQueue` are independent of the
hook state (in particular of `isSyncing`) at invocation time; the only
re-entry protection is the UI, which renders the manual sync button only
while `isSyncing` is false. -/
theorem sync_trigger_unguarded (s0 : AppState) (st0 st0p : SyncState)
    (net : QueuedRequest → Bool) (o p : Bool) :
    (syncQueueRun s0 st0 net).1 = (syncQueueRun s0 st0p net).1 ∧
    (syncQueueRun s0 st0 net).2.2 = (syncQueueRun s0 st0p net).2.2 ∧
    showSyncButton o p true = false := by
  have key : ∀ (st1 st2 : SyncState),
      (syncQueueRun s0 st1 net).1 = (syncQueueRun s0 st2 net).1 ∧
      (syncQueueRun s0 st1 net).2.2 = (syncQueueRun s0 st2 net).2.2 := by
    intro st1 st2
    unfold syncQueueRun
    by_cases h0 : (s0.queue.length == 0) = true
    · simp [h0]
    · cases h1 : s0.hookOnline
      · simp [h0, h1]
      · simp only [h0, h1, Bool.not_true, Bool.false_eq_true, if_false]
        exact ⟨trivial, trivial⟩
  exact ⟨(key st0 st0p).1, (key st0 st0p).2, by simp [showSyncButton]⟩

/-- C1 counterexample: invoking the sync trigger while the engine is already
in the Running state (`isSyncing = true`) is not a no-op — with a one-element
queue the concurrent invocation still drains it (one entry processed, queue
emptied). -/
theorem sync_trigger_reentry_counterexample :
    (syncQueueRun reentryState { isSyncing := true } (fun _ => true)).2.2.processed = 1 ∧
    (syncQueueRun reentryState { isSyncing := true } (fun _ => true)).1.queue = [] ∧
    reentryState.queue ≠ [] := by
  refine ⟨rfl, rfl, by decide⟩

/-- C2: after a sync run over a queue snapshot, every processed entry is
absent from the Queue Store regardless of its replay outcome; on failure a
message keyed by the entry description is recorded; the failure counter
equals the number of failed replays; each entry is replayed exactly once
(no retry); and the entry's optimistic placeholder, when attached, is
absent from the Display Cache and from every matching in-memory cache
entry after the run. -/
theorem sync_run_at_most_once (s0 : AppState) (st0 : SyncState)
    (net : QueuedRequest → Bool) (hon : s0.hookOnline = true) :
    (∀ r ∈ s0.queue,
      (∀ q ∈ (syncQueueRun s0 st0 net).1.queue, q.id ≠ r.id) ∧
      (net r = false →
        ("Failed: " ++ r.description) ∈ (syncQueueRun s0 st0 net).2.1.syncErrors) ∧
      (∀ od, r.optimisticData = some od →
        (∀ it ∈ (syncQueueRun s0 st0 net).1.display, it.tempId ≠ od.tempId) ∧
        qcCleanFor od.queryKey od.tempId (syncQueueRun s0 st0 net).1.qc)) ∧
    (syncQueueRun s0 st0 net).2.2.failed = s0.queue.countP (fun r => !net r) ∧
    (syncQueueRun s0 st0 net).1.network.length = s0.network.length + s0.queue.length := by
  refine ⟨?_, ?_, ?_⟩
  · intro r hmem
    have hne : s0.queue ≠ [] := by
      intro h
      rw [h] at hmem
      cases hmem
    refine ⟨?_, ?_, ?_⟩
    · intro q hq
      rw [syncQueueRun_queue s0 st0 net hon] at hq
      have hall := (List.mem_filter.mp hq).2
      have := (List.all_eq_true.mp hall) r hmem
      simpa [bne_iff_ne] using this
    · intro hfail
      rw [syncQueueRun_errors s0 st0 net hne hon]
      exact List.mem_map.mpr ⟨r, List.mem_filter.mpr ⟨hmem, by simp [hfail]⟩, rfl⟩
    · intro od hod
      constructor
      · intro it hit
        rw [syncQueueRun_display s0 st0 net hon] at hit
        have hall := (List.mem_filter.mp hit).2
        have := (List.all_eq_true.mp hall) r hmem
        rw [hod] at this
        simpa [bne_iff_ne] using this
      · exact syncQueueRun_qcClean s0 st0 net r od hon hmem hod
  · rw [syncQueueRun_result s0 st0 net hon]
  · rw [syncQueueRun_network s0 st0 net hon]
    simp

/-- Witness for C2 at a concrete one-element queue whose replay fails. -/
theorem sync_run_at_most_once_witness :
    (syncQueueRun c2State {} (fun _ => false)).2.2.failed = 1 ∧
    ("Failed: " ++ c2Req.description) ∈ (syncQueueRun c2State {} (fun _ => false)).2.1.syncErrors :=
  have h := sync_run_at_most_once c2State {} (fun _ => false) rfl
  ⟨(h.2.1).trans (by decide), ((h.1 c2Req (by decide)).2.1) rfl⟩

/-- C3: a drain re-issues the underlying requests in exactly the snapshot
order (which is enqueue order, since `addToQueue` appends at the end — the
second conjunct); sequential processing with one awaited outcome per entry
is the recursion structure of `drainLoop`. -/
theorem sync_run_fifo_order (s0 : AppState) (st0 : SyncState) (net : QueuedRequest → Bool)
    (s : AppState) (config : AxiosConfig) (out : NetOutcome)
    (hon : s0.hookOnline = true)
    (hoff : s.navigatorOnLine = false) (hmut : isMutationMethod config = true) :
    (syncQueueRun s0 st0 net).1.network =
      s0.network ++ s0.queue.map (fun r =>
        IssuedRequest.mk r.config (effectiveAuthHeader s0.token r.config)) ∧
    ∃ req, (sendRequest s config out).1.queue = s.queue ++ [req] ∧ req.config = config := by
  constructor
  · exact syncQueueRun_network s0 st0 net hon
  · unfold sendRequest requestInterceptor
    simp only [hoff, hmut, Bool.not_false, Bool.true_and, if_true]
    unfold queueOfflineMutation SyncQueueManager.addToQueue
    refine ⟨_, rfl, rfl⟩

/-- Witness for C3 at a concrete two-element queue. -/
theorem sync_run_fifo_order_witness :
    (syncQueueRun fifoState {} (fun _ => true)).1.network =
      fifoState.network ++ fifoState.queue.map (fun r =>
        IssuedRequest.mk r.config (effectiveAuthHeader fifoState.token r.config)) ∧
    (syncQueueRun fifoState {} (fun _ => true)).1.network.length = 2 :=
  have h := sync_run_fifo_order fifoState {} (fun _ => true) fifoOffState fifoCfg .ok
    rfl rfl (by decide)
  ⟨h.1, by rw [h.1]; decide⟩

/-- C4 counterexample: an offline POST to the recognized `/categories` path
yields one new Queue Store entry, zero network calls and a success toast,
but no new Display Cache entry — the categories branch of the applier never
writes the Display Cache, contradicting the claim for that family. -/
theorem offline_roundtrip_counterexample :
    ((sendRequest c4State c4Config .ok).1.queue.length = c4State.queue.length + 1) ∧
    ((sendRequest c4State c4Config .ok).2 = .offlineQueued) ∧
    ((sendRequest c4State c4Config .ok).1.network = c4State.network) ∧
    ((sendRequest c4State c4Config .ok).1.toasts =
      [Toast.success "Change saved offline - will sync when online"]) ∧
    ((sendRequest c4State c4Config .ok).1.display.length ≠ c4State.display.length + 1) := by
  refine ⟨rfl, rfl, rfl, rfl, by decide⟩

/-- C4 (amended): for every POST to a recognized resource path issued while
connectivity is reported false (with the query client installed), exactly
one Queue Store entry is added, zero network calls occur, a success-styled
toast is shown, and one Display Cache entry is added exactly when the
family is transactions, planned transactions or currency exchanges —
categories and budget periods receive no Display Cache entry. -/
theorem offline_roundtrip_amended (s : AppState) (config : AxiosConfig)
    (out : NetOutcome) (f : ResourceFamily)
    (hoff : s.navigatorOnLine = false)
    (hqc : s.queryClientReady = true)
    (hpost : methodLower config = "post")
    (hf : resourceFamily (config.url.getD "") = some f) :
    (sendRequest s config out).1.queue.length = s.queue.length + 1 ∧
    (sendRequest s config out).1.network = s.network ∧
    (sendRequest s config out).1.toasts =
      s.toasts ++ [.success "Change saved offline - will sync when online"] ∧
    (sendRequest s config out).1.display.length =
      s.display.length + (if f.displayCached then 1 else 0) ∧
    (sendRequest s config out).2 = .offlineQueued := by
  have hmut : isMutationMethod config = true := by
    simp [isMutationMethod, hpost]
  have hsend : sendRequest s config out = (queueOfflineMutation s config, .offlineQueued) := by
    unfold sendRequest requestInterceptor
    simp [hoff, hmut]
  rw [hsend]
  unfold queueOfflineMutation
  simp only [hqc, if_true]
  rw [perform_spec s.qc s.display s.now s.rand config f hpost hf]
  unfold SyncQueueManager.addToQueue
  refine ⟨by simp, trivial, trivial, ?_, trivial⟩
  cases hd : f.displayCached
  · simp [hd]
  · simp [hd, OfflineDisplayCache.addItem]

/-- Witness for C4 (amended) at a concrete offline transaction POST. -/
theorem offline_roundtrip_amended_witness :
    (sendRequest c4WState c4WCfg .ok).1.queue.length = c4WState.queue.length + 1 ∧
    (sendRequest c4WState c4WCfg .ok).1.network = c4WState.network ∧
    (sendRequest c4WState c4WCfg .ok).1.display.length =
      c4WState.display.length + (if ResourceFamily.transactions.displayCached then 1 else 0) ∧
    (sendRequest c4WState c4WCfg .ok).2 = .offlineQueued :=
  have h := offline_roundtrip_amended c4WState c4WCfg .ok .transactions rfl rfl
    (by decide) (by decide)
  ⟨h.1, h.2.1, h.2.2.2.1, h.2.2.2.2⟩

/-- C5 counterexample: a successful optimistic application for a category
(POST `/categories`) returns `OptimisticData` with temp id `temp-5-r`, yet
leaves the Display Cache empty — the placeholder never appears in the
Display Cache for this family, contradicting the both-stores claim. -/
theorem optimistic_lifecycle_counterexample :
    ((performOptimisticUpdate c5Qc [] 5 "r" c5Config).ret.map (·.tempId) =
      some "temp-5-r") ∧
    ((performOptimisticUpdate c5Qc [] 5 "r" c5Config).display = []) :=
  ⟨rfl, rfl⟩

/-- C5 (amended): after a successful optimistic application, the placeholder
with `_tempId = X` is present in every matching array-valued in-memory
cache entry, and in the Display Cache exactly for the three display-cached
families (transactions, planned transactions, currency exchanges); after
the corresponding queue entry's sync outcome — success or failure — is
processed, no matching in-memory entry and no Display Cache record carries
`_tempId = X`. -/
theorem optimistic_lifecycle_amended (qc : QueryCache) (d : List OfflineDisplayItem)
    (now : Nat) (rand : String) (config : AxiosConfig) (od : OptimisticData)
    (hret : (performOptimisticUpdate qc d now rand config).ret = some od) :
    (∀ e ∈ (performOptimisticUpdate qc d now rand config).qc,
        keyFilterMatches od.queryKey e.key = true →
        ∀ items, e.val = .arr items → ∃ it ∈ items, it.tempId? = some od.tempId) ∧
    (∃ f, resourceFamily (config.url.getD "") = some f ∧
        (f.displayCached = true →
          ∃ it ∈ (performOptimisticUpdate qc d now rand config).display,
            it.tempId = od.tempId) ∧
        (f.displayCached = false →
          (performOptimisticUpdate qc d now rand config).display = d)) ∧
    (∀ (s0 : AppState) (st0 : SyncState) (net : QueuedRequest → Bool) (r : QueuedRequest),
        s0.hookOnline = true → r ∈ s0.queue → r.optimisticData = some od →
        (∀ it ∈ (syncQueueRun s0 st0 net).1.display, it.tempId ≠ od.tempId) ∧
        qcCleanFor od.queryKey od.tempId (syncQueueRun s0 st0 net).1.qc) := by
  have hpost : methodLower config = "post" := by
    by_contra hnp
    rw [perform_not_post qc d now rand config hnp] at hret
    cases hret
  obtain ⟨f, hf⟩ : ∃ f, resourceFamily (config.url.getD "") = some f := by
    cases hrf : resourceFamily (config.url.getD "") with
    | none =>
      rw [perform_unrecognized qc d now rand config hrf] at hret
      cases hret
    | some f => exact ⟨f, rfl⟩
  have hspec := perform_spec qc d now rand config f hpost hf
  rw [hspec] at hret
  have hret2 : some (OptimisticData.mk (familyQueryKey config f) (tempIdOf now rand)
      (placeholderItem qc config (tempIdOf now rand) f)) = some od := hret
  injection hret2 with hret3
  subst hret3
  refine ⟨?_, ⟨f, hf, ?_, ?_⟩, ?_⟩
  · rw [hspec]
    intro e he hm items hv
    exact ⟨placeholderItem qc config (tempIdOf now rand) f,
      setQueriesData_prepend_mem qc _ _ e he hm items hv,
      by cases f <;> rfl⟩
  · intro hdc
    rw [hspec]
    simp only [hdc, if_true]
    unfold OfflineDisplayCache.addItem
    refine ⟨_, List.mem_append_right _ (List.mem_singleton.mpr rfl), rfl⟩
  · intro hdc
    rw [hspec]
    simp [hdc]
  · intro s0 st0 net r hon hmem hod2
    constructor
    · intro it hit
      rw [syncQueueRun_display s0 st0 net hon] at hit
      have hall := (List.mem_filter.mp hit).2
      have hx := (List.all_eq_true.mp hall) r hmem
      rw [hod2] at hx
      simpa [bne_iff_ne] using hx
    · exact syncQueueRun_qcClean s0 st0 net r _ hon hmem hod2

/-- Witness for C5 (amended) at a concrete transaction placeholder. -/
theorem optimistic_lifecycle_amended_witness :
    qcCleanFor c5WOd.queryKey c5WOd.tempId
      (syncQueueRun c5WState {} (fun _ => true)).1.qc ∧
    (performOptimisticUpdate [] [] 5 "r" c5WCfg).ret = some c5WOd :=
  have h := optimistic_lifecycle_amended [] [] 5 "r" c5WCfg c5WOd rfl
  ⟨(h.2.2 c5WState {} (fun _ => true) c5WReq rfl (by decide) rfl).2, rfl⟩

/-- C6: a run over an empty snapshot returns `{success: true, processed: 0,
failed: 0}` with no state change; a run started while the hook reports
offline adds only the error toast and returns without mutating the queue;
otherwise the run ends with all cached query data invalidated, a single
aggregate toast, and the result `{success: failed == 0, processed, failed}`. -/
theorem sync_run_reporting (s0 : AppState) (st0 : SyncState) (net : QueuedRequest → Bool) :
    (s0.queue = [] → syncQueueRun s0 st0 net = (s0, st0, ⟨true, 0, 0⟩)) ∧
    (s0.queue ≠ [] → s0.hookOnline = false →
      syncQueueRun s0 st0 net =
        ({ s0 with toasts := s0.toasts ++ [.error "Cannot sync while offline"] },
         st0, ⟨false, 0, 0⟩)) ∧
    (s0.queue ≠ [] → s0.hookOnline = true →
      (syncQueueRun s0 st0 net).1.invalidated = true ∧
      (syncQueueRun s0 st0 net).2.2 =
        ⟨s0.queue.countP (fun r => !net r) == 0,
         s0.queue.countP (fun r => net r), s0.queue.countP (fun r => !net r)⟩ ∧
      (syncQueueRun s0 st0 net).1.toasts =
        s0.toasts ++
          [if s0.queue.countP (fun r => !net r) == 0 then
             Toast.success ("Successfully synced "
               ++ toString (s0.queue.countP fun r => net r) ++ " changes")
           else
             Toast.error ("Synced " ++ toString (s0.queue.countP fun r => net r)
               ++ " changes, " ++ toString (s0.queue.countP fun r => !net r)
               ++ " failed")]) := by
  refine ⟨?_, ?_, ?_⟩
  · intro h
    unfold syncQueueRun
    simp [h]
  · intro hne hoff
    unfold syncQueueRun
    simp [queue_length_ne_zero _ hne, hoff]
  · intro hne hon
    exact ⟨syncQueueRun_invalidated s0 st0 net hne hon,
      syncQueueRun_result s0 st0 net hon,
      syncQueueRun_toasts s0 st0 net hne hon⟩

/-- Witness for C6 at a concrete one-element queue with a successful replay. -/
theorem sync_run_reporting_witness :
    (syncQueueRun c6State {} (fun _ => true)).1.invalidated = true ∧
    (syncQueueRun c6State {} (fun _ => true)).2.2 = ⟨true, 1, 0⟩ :=
  have h := (sync_run_reporting c6State {} (fun _ => true)).2.2 (by decide) rfl
  ⟨h.1, (h.2.1).trans (by decide)⟩

/-- C7: a request is classified as a mutation exactly when its method is
POST, PUT or DELETE; a non-mutation always goes to the network and never
touches the queue (even offline); while offline the caller sees the
queued-offline signal exactly for mutations; and while online any request
is dispatched with no Queue Store mutation unless the call itself fails
with a connectivity error. -/
theorem mutation_classification (s : AppState) (config : AxiosConfig) (out : NetOutcome) :
    (isMutationMethod config = true ↔
      methodLower config = "post" ∨ methodLower config = "put"
        ∨ methodLower config = "delete") ∧
    (isMutationMethod config = false →
      (sendRequest s config out).1.queue = s.queue ∧
      (sendRequest s config out).1.network =
        s.network ++ [IssuedRequest.mk config (effectiveAuthHeader s.token config)]) ∧
    (s.navigatorOnLine = false →
      ((sendRequest s config out).2 = .offlineQueued ↔ isMutationMethod config = true)) ∧
    (s.navigatorOnLine = true → out ≠ .networkError →
      (sendRequest s config out).1.queue = s.queue ∧
      (sendRequest s config out).1.network =
        s.network ++ [IssuedRequest.mk config (effectiveAuthHeader s.token config)]) := by
  refine ⟨?_, ?_, ?_, ?_⟩
  · simp [isMutationMethod]
  · intro hm
    have hproc : requestInterceptor s config = (s, .proceed config) := by
      unfold requestInterceptor
      simp [hm]
    unfold sendRequest
    rw [hproc]
    have hpres := respInt_preserves
      { s with network := s.network ++ [IssuedRequest.mk config (effectiveAuthHeader s.token config)] }
      config out (fun _ => hm)
    exact ⟨hpres.1, hpres.2⟩
  · intro hoff
    by_cases hm : isMutationMethod config = true
    · have hsend : sendRequest s config out = (queueOfflineMutation s config, .offlineQueued) := by
        unfold sendRequest requestInterceptor
        simp [hoff, hm]
      rw [hsend]
      simp [hm]
    · have hm' : isMutationMethod config = false := by
        revert hm
        cases isMutationMethod config <;> simp
      have hproc : requestInterceptor s config = (s, .proceed config) := by
        unfold requestInterceptor
        simp [hm']
      unfold sendRequest
      rw [hproc]
      constructor
      · intro habs
        exact absurd habs (respInt_not_offlineQueued _ config out hm')
      · intro h
        rw [h] at hm'
        cases hm'
  · intro hon hnn
    have hproc : requestInterceptor s config = (s, .proceed config) := by
      unfold requestInterceptor
      simp [hon]
    unfold sendRequest
    rw [hproc]
    have hpres := respInt_preserves
      { s with network := s.network ++ [IssuedRequest.mk config (effectiveAuthHeader s.token config)] }
      config out (fun hne => absurd hne hnn)
    exact ⟨hpres.1, hpres.2⟩

/-- Witness for C7 at a concrete offline GET. -/
theorem mutation_classification_witness :
    ((sendRequest c7State c7Cfg .ok).1.queue = c7State.queue ∧
     (sendRequest c7State c7Cfg .ok).1.network =
       c7State.network ++ [IssuedRequest.mk c7Cfg (effectiveAuthHeader c7State.token c7Cfg)]) ∧
    ((sendRequest c7State c7Cfg .ok).2 = .offlineQueued ↔ isMutationMethod c7Cfg = true) :=
  have h := mutation_classification c7State c7Cfg .ok
  ⟨h.2.1 (by decide), h.2.2.1 rfl⟩

/-- C8: a 401 response received while the location is not an unauthenticated
route clears the stored credential and navigates to the login boundary,
leaving everything else (queue included) untouched; every other non-2xx
response passes through to the caller with the state unmodified. -/
theorem teardown_401 (s : AppState) (config : AxiosConfig) :
    (¬(s.locationPath = "/login" ∨ s.locationPath = "/register") →
      (responseInterceptor s config (.httpError 401)).1 =
        { s with token := none, locationPath := "/login" } ∧
      (responseInterceptor s config (.httpError 401)).2 = .httpFailure 401) ∧
    (∀ status, status ≠ 401 →
      responseInterceptor s config (.httpError status) = (s, .httpFailure status)) := by
  constructor
  · intro h
    push_neg at h
    have h1 : (s.locationPath == "/login") = false := by
      simp [h.1]
    have h2 : (s.locationPath == "/register") = false := by
      simp [h.2]
    unfold responseInterceptor
    simp [h1, h2]
  · intro status hst
    have h3 : (status == 401) = false := by
      simp [hst]
    unfold responseInterceptor
    simp [h3]

/-- Witness for C8 at a concrete authenticated location. -/
theorem teardown_401_witness :
    (¬(c8State.locationPath = "/login" ∨ c8State.locationPath = "/register")) ∧
    ((responseInterceptor c8State { method := some "get" } (.httpError 401)).1 =
      { c8State with token := none, locationPath := "/login" } ∧
     (responseInterceptor c8State { method := some "get" } (.httpError 401)).2 =
      .httpFailure 401) ∧
    responseInterceptor c8State { method := some "get" } (.httpError 500) =
      (c8State, .httpFailure 500) :=
  ⟨by decide,
   (teardown_401 c8State { method := some "get" }).1 (by decide),
   (teardown_401 c8State { method := some "get" }).2 500 (by decide)⟩

/-- C9 evaluation at the failing input: the stored token at replay time is
`new`, yet the replayed request goes out with `Authorization: Bearer old`
from the headers captured at enqueue time — per-request headers take
precedence over the fresh instance default under axios config merging, so
the current credential never reaches the wire when a captured one is
present. -/
theorem replay_credential_divergence :
    staleState.token = some "new" ∧
    (syncQueueRun staleState {} (fun _ => true)).1.network.map (·.authHeader) =
      [some "Bearer old"] :=
  ⟨rfl, rfl⟩

/-- C10 counterexample: a stored string that is valid JSON but not an array
(modelled by the parse oracle mapping `"5"` to a non-array value) makes the
queue reader return that non-array value as-is — not a list — and makes the
derived `removeFromQueue` and `getItemsByType` throw a `TypeError` on
`.filter`; the original totality claim fails at this storage state. -/
theorem storage_reads_total_counterexample :
    SyncQueueManager.getQueueRaw nonArrayParseQ (some "5") =
      .nonArr .jsonOther ∧
    SyncQueueManager.removeFromQueueRaw nonArrayParseQ (some "5") "x" = none ∧
    OfflineDisplayCache.getItemsRaw nonArrayParseD (some "5") =
      .nonArr .jsonOther ∧
    OfflineDisplayCache.getItemsByTypeRaw nonArrayParseD (some "5")
      .transaction none = none ∧
    OfflineDisplayCache.removeItemRaw nonArrayParseD (some "5") "x" = none :=
  ⟨rfl, rfl, rfl, rfl, rfl⟩

/-- C10 (amended): the two store readers never propagate an exception — an
absent key, an empty stored string, or a stored string on which the parse
throws all yield the empty array, and a successful parse is returned
as-is, non-array JSON included.  Every derived operation (size,
hasPending, removeById, getItemsByType) is defined and consistent with the
reader whenever the read value is an array — hence for every state the
subsystem itself writes — while a stored string parsing to non-array JSON
makes `removeFromQueue`, `getItemsByType` and `removeItem` throw a
`TypeError` on `.filter` (modelled `none`). -/
theorem storage_reads_guarded
    (parseQ : String → Option (ParsedJson QueuedRequest))
    (parseD : String → Option (ParsedJson OfflineDisplayItem))
    (stored : Option String) (id : String) (et : EntityType)
    (bp : Option (Option Nat)) :
    (SyncQueueManager.getQueueRaw parseQ none = .arrOf []) ∧
    (SyncQueueManager.getQueueRaw parseQ (some "") = .arrOf []) ∧
    (∀ str, str ≠ "" → parseQ str = none →
      SyncQueueManager.getQueueRaw parseQ (some str) = .arrOf []) ∧
    (∀ str v, str ≠ "" → parseQ str = some v →
      SyncQueueManager.getQueueRaw parseQ (some str) = v) ∧
    (OfflineDisplayCache.getItemsRaw parseD none = .arrOf []) ∧
    (∀ str, str ≠ "" → parseD str = none →
      OfflineDisplayCache.getItemsRaw parseD (some str) = .arrOf []) ∧
    (∀ str v, str ≠ "" → parseD str = some v →
      OfflineDisplayCache.getItemsRaw parseD (some str) = v) ∧
    (∀ l, SyncQueueManager.getQueueRaw parseQ stored = .arrOf l →
      SyncQueueManager.getQueueSizeRaw parseQ stored = some l.length ∧
      (SyncQueueManager.hasPendingRequestsRaw parseQ stored = true ↔ l ≠ []) ∧
      SyncQueueManager.removeFromQueueRaw parseQ stored id =
        some (SyncQueueManager.removeFromQueue l id) ∧
      (∀ r ∈ SyncQueueManager.removeFromQueue l id, r ∈ l ∧ r.id ≠ id)) ∧
    (∀ l, OfflineDisplayCache.getItemsRaw parseD stored = .arrOf l →
      OfflineDisplayCache.getCountRaw parseD stored = some l.length ∧
      OfflineDisplayCache.getItemsByTypeRaw parseD stored et bp =
        some (OfflineDisplayCache.getItemsByType l et bp) ∧
      OfflineDisplayCache.removeItemRaw parseD stored id =
        some (OfflineDisplayCache.removeItem l id) ∧
      (∀ x ∈ OfflineDisplayCache.getItemsByType l et bp,
        ∃ it ∈ l, it.data = x ∧ it.entityType = et)) ∧
    (∀ v, SyncQueueManager.getQueueRaw parseQ stored = .nonArr v →
      SyncQueueManager.removeFromQueueRaw parseQ stored id = none) ∧
    (∀ v, OfflineDisplayCache.getItemsRaw parseD stored = .nonArr v →
      OfflineDisplayCache.getItemsByTypeRaw parseD stored et bp = none ∧
      OfflineDisplayCache.removeItemRaw parseD stored id = none) := by
  refine ⟨rfl, rfl, ?_, ?_, rfl, ?_, ?_, ?_, ?_, ?_, ?_⟩
  · intro str hne h
    simp [SyncQueueManager.getQueueRaw, hne, h]
  · intro str v hne h
    simp [SyncQueueManager.getQueueRaw, hne, h]
  · intro str hne h
    simp [OfflineDisplayCache.getItemsRaw, hne, h]
  · intro str v hne h
    simp [OfflineDisplayCache.getItemsRaw, hne, h]
  · intro l hl
    refine ⟨?_, ?_, ?_, ?_⟩
    · unfold SyncQueueManager.getQueueSizeRaw
      rw [hl]
    · unfold SyncQueueManager.hasPendingRequestsRaw SyncQueueManager.getQueueSizeRaw
      rw [hl]
      simp [List.length_pos]
    · unfold SyncQueueManager.removeFromQueueRaw
      rw [hl]
    · intro r hr
      unfold SyncQueueManager.removeFromQueue at hr
      have h := List.mem_filter.mp hr
      exact ⟨h.1, by simpa [bne_iff_ne] using h.2⟩
  · intro l hl
    refine ⟨?_, ?_, ?_, ?_⟩
    · unfold OfflineDisplayCache.getCountRaw
      rw [hl]
    · unfold OfflineDisplayCache.getItemsByTypeRaw
      rw [hl]
    · unfold OfflineDisplayCache.removeItemRaw
      rw [hl]
    · intro x hx
      unfold OfflineDisplayCache.getItemsByType at hx
      obtain ⟨it, hit, rfl⟩ := List.mem_map.mp hx
      have hmem := (List.mem_filter.mp hit).1
      have hcond := (List.mem_filter.mp hit).2
      refine ⟨it, hmem, rfl, ?_⟩
      by_cases he : (it.entityType != et) = true
      · rw [if_pos he] at hcond
        cases hcond
      · simpa [bne_iff_ne] using he
  · intro v hv
    unfold SyncQueueManager.removeFromQueueRaw
    rw [hv]
  · intro v hv
    constructor
    · unfold OfflineDisplayCache.getItemsByTypeRaw
      rw [hv]
    · unfold OfflineDisplayCache.removeItemRaw
      rw [hv]

/-- Witness for C10 (amended) at a parse oracle covering a malformed stored
string, an array-valued one, and a non-array one. -/
theorem storage_reads_guarded_witness :
    SyncQueueManager.getQueueRaw nonArrayParseQ (some "bad") = .arrOf [] ∧
    SyncQueueManager.getQueueSizeRaw nonArrayParseQ (some "ok") = some 0 ∧
    SyncQueueManager.removeFromQueueRaw nonArrayParseQ (some "5") "x" = none ∧
    OfflineDisplayCache.getItemsByTypeRaw nonArrayParseD (some "5")
      .transaction none = none :=
  have hok := storage_reads_guarded nonArrayParseQ nonArrayParseD (some "ok")
    "x" .transaction none
  have h5 := storage_reads_guarded nonArrayParseQ nonArrayParseD (some "5")
    "x" .transaction none
  ⟨(storage_reads_guarded nonArrayParseQ nonArrayParseD none "x" .transaction
      none).2.2.1 "bad" (by decide) rfl,
   (hok.2.2.2.2.2.2.2.1 [] rfl).1,
   h5.2.2.2.2.2.2.2.2.2.1 .jsonOther rfl,
   (h5.2.2.2.2.2.2.2.2.2.2 .jsonOther rfl).1⟩

end Monie
